import Mathlib

/-!
Shallow embedding of the mock-itr-scenario-mcp core: the scenario data
model with its dict serialization, the error taxonomy of
`models/enums.py`, and the tool handlers of `server.py`.

The file `models/scenario.py` (the pydantic entity definitions and their
`to_dict` / `from_dict`) is not part of the sources available here; those
entities are modelled from the specification (§3 Data Model, §4.2
Serialization) and from the assertions of `tests/test_server.py`, and are
marked `Modelled from the spec:` in their doc comments.  Everything else is
translated directly from `server.py` and `models/enums.py`.

Plain nested key/value data (the wire form produced by `json.dumps`) is
embedded as the inductive type `Value`; Python floats appearing in the
data (only `delay_seconds`) are embedded as exact rationals, which is
faithful because the program only stores and copies them, never computes
with them.
-/

namespace MockItr

/-- A plain nested key/value document: the wire/storage form of scenarios
(Python dicts / parsed JSON).  Objects are ordered association lists,
matching Python dict insertion order. -/
inductive Value where
  | null : Value
  | bool (b : Bool) : Value
  | int (n : Int) : Value
  | num (q : ℚ) : Value
  | str (s : String) : Value
  | list (xs : List Value) : Value
  | obj (fields : List (String × Value)) : Value

/-- Python truthiness of a value (`if scenario_data:` etc.):
None, False, 0, "", [], and the empty dict are falsy. -/
def Value.isTruthy : Value → Bool
  | .null => false
  | .bool b => b
  | .int n => n != 0
  | .num q => q != 0
  | .str s => s != ""
  | .list xs => !xs.isEmpty
  | .obj fields => !fields.isEmpty

/-- First-match association lookup on an object's fields
(Python `dict.__getitem__` / `dict.get`; keys are unique in real dicts, so
first-match agrees with dict semantics). -/
def lookupField (fields : List (String × Value)) (key : String) : Option Value :=
  match fields with
  | [] => none
  | (k, v) :: rest => if k = key then some v else lookupField rest key

/-- `data.get(key, default)` on an object's fields. -/
def getD (fields : List (String × Value)) (key : String) (d : Value) : Value :=
  (lookupField fields key).getD d

/- ===================== models/enums.py ===================== -/

/-- `BizType(str, Enum)` from `models/enums.py`. -/
inductive BizType where
  | individual_biz
  | non_biz
  | corp
deriving DecidableEq

/-- The `.value` string of a `BizType` member. -/
def BizType.value : BizType → String
  | .individual_biz => "individual_biz"
  | .non_biz => "non_biz"
  | .corp => "corp"

/-- `BizType(s)`: enum lookup by value, `none` models the `ValueError`. -/
def BizType.fromValue : String → Option BizType
  | "individual_biz" => some .individual_biz
  | "non_biz" => some .non_biz
  | "corp" => some .corp
  | _ => none

/-- `ErrorType(str, Enum)` from `models/enums.py`. -/
inductive ErrorType where
  | NO_TAX_RETURN
  | NO_BIZ
  | CALC_ERROR
  | ALREADY_REFUNDED
  | NOT_COMPLETE
  | NO_CONT_BIZ
  | AUTH_EXPIRED
  | AUTH_NOT_COMPLETE
  | LOGIN_FAILED
  | SESSION_EXPIRED
  | INVALID_SSN
deriving DecidableEq

/-- The `.value` string of an `ErrorType` member (Korean labels, verbatim
from `models/enums.py`). -/
def ErrorType.value : ErrorType → String
  | .NO_TAX_RETURN => "종소세신고내역없음"
  | .NO_BIZ => "사업자없음오류"
  | .CALC_ERROR => "계산오류"
  | .ALREADY_REFUNDED => "기환급자"
  | .NOT_COMPLETE => "미완료"
  | .NO_CONT_BIZ => "계속사업자없음"
  | .AUTH_EXPIRED => "간편인증토큰만료"
  | .AUTH_NOT_COMPLETE => "간편인증미완료"
  | .LOGIN_FAILED => "홈택스로그인실패"
  | .SESSION_EXPIRED => "세션만료"
  | .INVALID_SSN => "주민번호오류"

/-- Member list in declaration order (`for e in ErrorType`). -/
def ErrorType.members : List ErrorType :=
  [.NO_TAX_RETURN, .NO_BIZ, .CALC_ERROR, .ALREADY_REFUNDED, .NOT_COMPLETE,
   .NO_CONT_BIZ, .AUTH_EXPIRED, .AUTH_NOT_COMPLETE, .LOGIN_FAILED,
   .SESSION_EXPIRED, .INVALID_SSN]

/-- `[e.value for e in ErrorType]`. -/
def ErrorType.values : List String := ErrorType.members.map ErrorType.value

/-- `ErrorType(s)`: enum lookup by value, `none` models the `ValueError`. -/
def ErrorType.fromValue : String → Option ErrorType
  | "종소세신고내역없음" => some .NO_TAX_RETURN
  | "사업자없음오류" => some .NO_BIZ
  | "계산오류" => some .CALC_ERROR
  | "기환급자" => some .ALREADY_REFUNDED
  | "미완료" => some .NOT_COMPLETE
  | "계속사업자없음" => some .NO_CONT_BIZ
  | "간편인증토큰만료" => some .AUTH_EXPIRED
  | "간편인증미완료" => some .AUTH_NOT_COMPLETE
  | "홈택스로그인실패" => some .LOGIN_FAILED
  | "세션만료" => some .SESSION_EXPIRED
  | "주민번호오류" => some .INVALID_SSN
  | _ => none

/-- `ActionType(str, Enum)` from `models/enums.py`. -/
inductive ActionType where
  | CERT_REQUEST
  | CERT_RESPONSE
  | CHECK
  | LOAD
  | CALC
deriving DecidableEq

/-- The `.value` string of an `ActionType` member. -/
def ActionType.value : ActionType → String
  | .CERT_REQUEST => "cert_request"
  | .CERT_RESPONSE => "cert_response"
  | .CHECK => "check"
  | .LOAD => "load"
  | .CALC => "calc"

/-- `ERROR_MESSAGES` from `models/enums.py`: the dict is total over the
enum's members, so it is embedded as a total function (the `.get`
fallback in `server.py` is dead code). -/
def ERROR_MESSAGES : ErrorType → String
  | .NO_TAX_RETURN => "종합소득세 신고 내역이 없습니다."
  | .NO_BIZ => "사업자 등록 정보가 없습니다."
  | .CALC_ERROR => "환급액 계산 중 오류가 발생했습니다."
  | .ALREADY_REFUNDED => "이미 환급 처리가 완료된 건입니다."
  | .NOT_COMPLETE => "처리가 완료되지 않았습니다."
  | .NO_CONT_BIZ => "계속사업자 정보가 없습니다."
  | .AUTH_EXPIRED => "간편인증 토큰이 만료되었습니다."
  | .AUTH_NOT_COMPLETE => "간편인증이 완료되지 않았습니다."
  | .LOGIN_FAILED => "홈택스 로그인에 실패했습니다."
  | .SESSION_EXPIRED => "세션이 만료되었습니다."
  | .INVALID_SSN => "주민등록번호가 올바르지 않습니다."

/-- `ERROR_DEFAULT_ACTION` from `models/enums.py`, likewise total. -/
def ERROR_DEFAULT_ACTION : ErrorType → ActionType
  | .NO_TAX_RETURN => .LOAD
  | .NO_BIZ => .LOAD
  | .CALC_ERROR => .LOAD
  | .ALREADY_REFUNDED => .LOAD
  | .NOT_COMPLETE => .LOAD
  | .NO_CONT_BIZ => .LOAD
  | .AUTH_EXPIRED => .CERT_RESPONSE
  | .AUTH_NOT_COMPLETE => .CERT_RESPONSE
  | .LOGIN_FAILED => .CHECK
  | .SESSION_EXPIRED => .CHECK
  | .INVALID_SSN => .CHECK

/- ===================== models/scenario.py (spec-modelled) ============ -/

/-- Modelled from the spec: `UserInfo` of the missing `models/scenario.py`
(§3; test `test_scenario_config_default` fixes the default name). -/
structure UserInfo where
  name : String := "테스트사용자"
  phone : Option String := none
  birthday : Option String := none
deriving DecidableEq

/-- Modelled from the spec: `BizLocation` of the missing
`models/scenario.py` — an auxiliary value object whose attributes are
opaque and copied verbatim through serialization (§3). -/
structure BizLocation where
  attrs : List (String × Value) := []

/-- Modelled from the spec: `TaxpayerInfo` of the missing
`models/scenario.py`: optional `tin` plus business-registration
attributes (§3). -/
structure TaxpayerInfo where
  tin : Option String := none
  biz_locations : List BizLocation := []

/-- Modelled from the spec: `RefundItem` of the missing
`models/scenario.py` — a single refund line item with opaque attributes
copied verbatim (§3). -/
structure RefundItem where
  attrs : List (String × Value) := []

/-- Modelled from the spec: `RefundResult` of the missing
`models/scenario.py` (§3; the named category amounts appear verbatim in
`server.py`'s `scenario_build_normal`). -/
structure RefundResult where
  total_refund : Int := 0
  «창중감_환급액» : Int := 0
  «고용증대_환급액» : Int := 0
  «사회보험료_환급액» : Int := 0
  items : List RefundItem := []

/-- Modelled from the spec: `ActionConfig` of the missing
`models/scenario.py` (§3). -/
structure ActionConfig where
  success : Bool := true
  error_type : Option String := none
  error_msg : Option String := none
deriving DecidableEq

/-- Modelled from the spec: `ProgressStep` of the missing
`models/scenario.py` (§3); `delay_seconds` is a Python float, embedded as
an exact rational (default 0.5 = 1/2). -/
structure ProgressStep where
  step_name : String
  progress : String
  delay_seconds : ℚ := 1/2
deriving DecidableEq

/-- Modelled from the spec: `ProgressConfig` of the missing
`models/scenario.py` (§3). -/
structure ProgressConfig where
  enabled : Bool := false
  queue_name : String := "refund-search.fifo"
  steps : List ProgressStep := []
deriving DecidableEq

/-- Modelled from the spec: `ScenarioConfig` of the missing
`models/scenario.py` (§3), the aggregate: one `ActionConfig` slot per
caller-settable processing stage, each defaulting to success=true. -/
structure ScenarioConfig where
  scenario_name : String := ""
  description : String := ""
  user_info : UserInfo := {}
  taxpayer_info : TaxpayerInfo := {}
  biz_type : BizType := .individual_biz
  refund_result : RefundResult := {}
  cert_request_config : ActionConfig := {}
  cert_response_config : ActionConfig := {}
  check_config : ActionConfig := {}
  load_config : ActionConfig := {}
  progress_config : ProgressConfig := {}

/- ===================== Serialization (spec §4.2, spec-modelled) ====== -/

/-- Serialization of an optional string field: unset optionals are
emitted as null (spec §4.2: every field, including unset optionals, is
emitted). -/
def optStrVal : Option String → Value
  | none => .null
  | some s => .str s

/-- Modelled from the spec: `UserInfo.to_dict`. -/
def UserInfo.to_dict (u : UserInfo) : Value :=
  .obj [("name", .str u.name), ("phone", optStrVal u.phone),
        ("birthday", optStrVal u.birthday)]

/-- Modelled from the spec: `BizLocation.to_dict` — opaque attributes
copied verbatim. -/
def BizLocation.to_dict (l : BizLocation) : Value := .obj l.attrs

/-- Modelled from the spec: `TaxpayerInfo.to_dict`. -/
def TaxpayerInfo.to_dict (t : TaxpayerInfo) : Value :=
  .obj [("tin", optStrVal t.tin),
        ("biz_locations", .list (t.biz_locations.map BizLocation.to_dict))]

/-- Modelled from the spec: `RefundItem.to_dict` — opaque attributes
copied verbatim. -/
def RefundItem.to_dict (i : RefundItem) : Value := .obj i.attrs

/-- Modelled from the spec: `RefundResult.to_dict`. -/
def RefundResult.to_dict (r : RefundResult) : Value :=
  .obj [("total_refund", .int r.total_refund),
        ("창중감_환급액", .int r.«창중감_환급액»),
        ("고용증대_환급액", .int r.«고용증대_환급액»),
        ("사회보험료_환급액", .int r.«사회보험료_환급액»),
        ("items", .list (r.items.map RefundItem.to_dict))]

/-- Modelled from the spec: `ActionConfig.to_dict`. -/
def ActionConfig.to_dict (a : ActionConfig) : Value :=
  .obj [("success", .bool a.success), ("error_type", optStrVal a.error_type),
        ("error_msg", optStrVal a.error_msg)]

/-- Modelled from the spec: `ProgressStep.to_dict`. -/
def ProgressStep.to_dict (p : ProgressStep) : Value :=
  .obj [("step_name", .str p.step_name), ("progress", .str p.progress),
        ("delay_seconds", .num p.delay_seconds)]

/-- Modelled from the spec: `ProgressConfig.to_dict`. -/
def ProgressConfig.to_dict (p : ProgressConfig) : Value :=
  .obj [("enabled", .bool p.enabled), ("queue_name", .str p.queue_name),
        ("steps", .list (p.steps.map ProgressStep.to_dict))]

/-- Modelled from the spec: `ScenarioConfig.to_dict` (§4.2
`to_representation`): every field is emitted under its attribute name;
enumerated fields are emitted as their canonical string value. -/
def ScenarioConfig.to_dict (s : ScenarioConfig) : Value :=
  .obj [("scenario_name", .str s.scenario_name),
        ("description", .str s.description),
        ("user_info", s.user_info.to_dict),
        ("taxpayer_info", s.taxpayer_info.to_dict),
        ("biz_type", .str s.biz_type.value),
        ("refund_result", s.refund_result.to_dict),
        ("cert_request_config", s.cert_request_config.to_dict),
        ("cert_response_config", s.cert_response_config.to_dict),
        ("check_config", s.check_config.to_dict),
        ("load_config", s.load_config.to_dict),
        ("progress_config", s.progress_config.to_dict)]

/- ----- deserialization ----- -/

/-- Coerce to a string, failing with a ParseError description. -/
def asStr : Value → Except String String
  | .str s => .ok s
  | _ => .error "expected a string"

/-- Coerce to an optional string (null meaning unset). -/
def asOptStr : Value → Except String (Option String)
  | .null => .ok none
  | .str s => .ok (some s)
  | _ => .error "expected a string or null"

/-- Coerce to an integer. -/
def asInt : Value → Except String Int
  | .int n => .ok n
  | _ => .error "expected an integer"

/-- Coerce to a boolean. -/
def asBool : Value → Except String Bool
  | .bool b => .ok b
  | _ => .error "expected a boolean"

/-- Coerce to a number. -/
def asNum : Value → Except String ℚ
  | .num q => .ok q
  | .int n => .ok (n : ℚ)
  | _ => .error "expected a number"

/-- Coerce to an object's field list (spec §4.2: a nested object that is
not a mapping is a ParseError). -/
def asObjFields : Value → Except String (List (String × Value))
  | .obj fields => .ok fields
  | _ => .error "expected a mapping"

/-- Coerce to a list and parse every element. -/
def asListOf (p : Value → Except String α) : Value → Except String (List α)
  | .list xs => xs.mapM p
  | _ => .error "expected a list"

/-- Parse the field stored under `key`: absent key means the documented
default, a present value is coerced (spec §4.2 `from_representation`). -/
def fieldD (fields : List (String × Value)) (key : String) (d : α)
    (p : Value → Except String α) : Except String α :=
  match lookupField fields key with
  | none => .ok d
  | some v => p v

/-- Modelled from the spec: `biz_type` coercion — fails when the value is
not one of the three allowed strings (§4.2). -/
def asBizType (v : Value) : Except String BizType := do
  let s ← asStr v
  match BizType.fromValue s with
  | some b => .ok b
  | none => .error ("invalid biz_type: " ++ s)

/-- Modelled from the spec: `UserInfo.from_dict`. -/
def UserInfo.from_dict (v : Value) : Except String UserInfo := do
  let f ← asObjFields v
  let name ← fieldD f "name" "테스트사용자" asStr
  let phone ← fieldD f "phone" none asOptStr
  let birthday ← fieldD f "birthday" none asOptStr
  .ok { name := name, phone := phone, birthday := birthday }

/-- Modelled from the spec: `BizLocation.from_dict`. -/
def BizLocation.from_dict (v : Value) : Except String BizLocation := do
  let f ← asObjFields v
  .ok { attrs := f }

/-- Modelled from the spec: `TaxpayerInfo.from_dict`. -/
def TaxpayerInfo.from_dict (v : Value) : Except String TaxpayerInfo := do
  let f ← asObjFields v
  let tin ← fieldD f "tin" none asOptStr
  let locs ← fieldD f "biz_locations" [] (asListOf BizLocation.from_dict)
  .ok { tin := tin, biz_locations := locs }

/-- Modelled from the spec: `RefundItem.from_dict`. -/
def RefundItem.from_dict (v : Value) : Except String RefundItem := do
  let f ← asObjFields v
  .ok { attrs := f }

/-- Modelled from the spec: `RefundResult.from_dict`. -/
def RefundResult.from_dict (v : Value) : Except String RefundResult := do
  let f ← asObjFields v
  let total ← fieldD f "total_refund" 0 asInt
  let a ← fieldD f "창중감_환급액" 0 asInt
  let b ← fieldD f "고용증대_환급액" 0 asInt
  let c ← fieldD f "사회보험료_환급액" 0 asInt
  let items ← fieldD f "items" [] (asListOf RefundItem.from_dict)
  .ok { total_refund := total, «창중감_환급액» := a, «고용증대_환급액» := b,
        «사회보험료_환급액» := c, items := items }

/-- Modelled from the spec: `ActionConfig.from_dict`. -/
def ActionConfig.from_dict (v : Value) : Except String ActionConfig := do
  let f ← asObjFields v
  let success ← fieldD f "success" true asBool
  let et ← fieldD f "error_type" none asOptStr
  let em ← fieldD f "error_msg" none asOptStr
  .ok { success := success, error_type := et, error_msg := em }

/-- Modelled from the spec: `ProgressStep.from_dict`. -/
def ProgressStep.from_dict (v : Value) : Except String ProgressStep := do
  let f ← asObjFields v
  let name ← fieldD f "step_name" "" asStr
  let progress ← fieldD f "progress" "0%" asStr
  let delay ← fieldD f "delay_seconds" (1/2) asNum
  .ok { step_name := name, progress := progress, delay_seconds := delay }

/-- Modelled from the spec: `ProgressConfig.from_dict`. -/
def ProgressConfig.from_dict (v : Value) : Except String ProgressConfig := do
  let f ← asObjFields v
  let enabled ← fieldD f "enabled" false asBool
  let queue ← fieldD f "queue_name" "refund-search.fifo" asStr
  let steps ← fieldD f "steps" [] (asListOf ProgressStep.from_dict)
  .ok { enabled := enabled, queue_name := queue, steps := steps }

/-- Modelled from the spec: `ScenarioConfig.from_dict` (§4.2
`from_representation`): absent keys take the documented defaults, present
values are coerced, coercion failures are ParseErrors. -/
def ScenarioConfig.from_dict (v : Value) : Except String ScenarioConfig := do
  let f ← asObjFields v
  let name ← fieldD f "scenario_name" "" asStr
  let descr ← fieldD f "description" "" asStr
  let user ← fieldD f "user_info" {} UserInfo.from_dict
  let taxpayer ← fieldD f "taxpayer_info" {} TaxpayerInfo.from_dict
  let biz ← fieldD f "biz_type" .individual_biz asBizType
  let refund ← fieldD f "refund_result" {} RefundResult.from_dict
  let certReq ← fieldD f "cert_request_config" {} ActionConfig.from_dict
  let certRes ← fieldD f "cert_response_config" {} ActionConfig.from_dict
  let check ← fieldD f "check_config" {} ActionConfig.from_dict
  let load ← fieldD f "load_config" {} ActionConfig.from_dict
  let progress ← fieldD f "progress_config" {} ProgressConfig.from_dict
  .ok { scenario_name := name, description := descr, user_info := user,
        taxpayer_info := taxpayer, biz_type := biz, refund_result := refund,
        cert_request_config := certReq, cert_response_config := certRes,
        check_config := check, load_config := load,
        progress_config := progress }

/- ===================== Round-trip lemmas ===================== -/

theorem ok_bind (a : α) (f : α → Except String β) :
    (Except.ok a >>= f) = f a := rfl

theorem mapM_map_ok (f : α → Value) (p : Value → Except String α)
    (h : ∀ x, p (f x) = .ok x) (xs : List α) :
    (xs.map f).mapM p = Except.ok xs := by
  induction xs with
  | nil => rfl
  | cons x rest ih =>
    rw [List.map_cons, List.mapM_cons, h x, ih]
    rfl

theorem asOptStr_optStrVal (o : Option String) :
    asOptStr (optStrVal o) = .ok o := by
  cases o <;> rfl

theorem asBizType_value (b : BizType) :
    asBizType (.str b.value) = .ok b := by
  cases b <;> rfl

theorem userInfo_roundtrip (u : UserInfo) :
    UserInfo.from_dict u.to_dict = .ok u := by
  cases u with
  | mk name phone birthday => cases phone <;> cases birthday <;> rfl

theorem bizLocation_roundtrip (l : BizLocation) :
    BizLocation.from_dict l.to_dict = .ok l := by
  cases l
  rfl

theorem bizLocations_mapM (ls : List BizLocation) :
    asListOf BizLocation.from_dict (.list (ls.map BizLocation.to_dict)) =
      Except.ok ls :=
  mapM_map_ok _ _ bizLocation_roundtrip ls

theorem taxpayerInfo_roundtrip (t : TaxpayerInfo) :
    TaxpayerInfo.from_dict t.to_dict = .ok t := by
  cases t with
  | mk tin locs =>
    cases tin <;>
      simp [TaxpayerInfo.from_dict, TaxpayerInfo.to_dict, fieldD, lookupField,
        asObjFields, asOptStr_optStrVal, bizLocations_mapM, ok_bind]

theorem refundItem_roundtrip (i : RefundItem) :
    RefundItem.from_dict i.to_dict = .ok i := by
  cases i
  rfl

theorem refundItems_mapM (xs : List RefundItem) :
    asListOf RefundItem.from_dict (.list (xs.map RefundItem.to_dict)) =
      Except.ok xs :=
  mapM_map_ok _ _ refundItem_roundtrip xs

theorem refundResult_roundtrip (r : RefundResult) :
    RefundResult.from_dict r.to_dict = .ok r := by
  cases r
  simp [RefundResult.from_dict, RefundResult.to_dict, fieldD, lookupField,
    asObjFields, asInt, refundItems_mapM, ok_bind]

theorem actionConfig_roundtrip (a : ActionConfig) :
    ActionConfig.from_dict a.to_dict = .ok a := by
  cases a with
  | mk success et em => cases et <;> cases em <;> rfl

theorem progressStep_roundtrip (p : ProgressStep) :
    ProgressStep.from_dict p.to_dict = .ok p := by
  cases p
  rfl

theorem steps_mapM (xs : List ProgressStep) :
    asListOf ProgressStep.from_dict (.list (xs.map ProgressStep.to_dict)) =
      Except.ok xs :=
  mapM_map_ok _ _ progressStep_roundtrip xs

theorem progressConfig_roundtrip (p : ProgressConfig) :
    ProgressConfig.from_dict p.to_dict = .ok p := by
  cases p
  simp [ProgressConfig.from_dict, ProgressConfig.to_dict, fieldD, lookupField,
    asObjFields, asBool, asStr, steps_mapM, ok_bind]

/-- C1: for every valid `ScenarioConfig` s, deserializing the serialized
form yields a scenario field-wise equal to s:
`ScenarioConfig.from_dict (s.to_dict) = .ok s`. -/
theorem scenario_roundtrip (s : ScenarioConfig) :
    ScenarioConfig.from_dict s.to_dict = .ok s := by
  cases s
  simp [ScenarioConfig.from_dict, ScenarioConfig.to_dict, fieldD, lookupField,
    asObjFields, asStr, userInfo_roundtrip, taxpayerInfo_roundtrip,
    asBizType_value, refundResult_roundtrip, actionConfig_roundtrip,
    progressConfig_roundtrip, ok_bind]

/- ===================== server.py handlers ===================== -/

/-- Substring test: Python's `pat in s`. -/
def containsSub (s pat : String) : Bool :=
  s.toList.tails.any fun t => pat.toList.isPrefixOf t

/-- Summary row built by `handle_template_list` for one template.
Python reads the fields dynamically, so the non-identifier fields stay
`Value`-typed. -/
structure TemplateSummary where
  template_id : String
  description : Value
  total_refund : Value
  biz_type : Value

/-- The summary-building body of `handle_template_list`'s loop
(`server.py` lines 338-349): `refund_result = template_data.get
("refund_result", {})` followed by `.get`s with defaults.  A template
value that is not a mapping makes the Python code raise
(`AttributeError` on `.get`), embedded as `.error`. -/
def summarizeTemplate (template_id : String) (template_data : Value) :
    Except String TemplateSummary :=
  match template_data with
  | .obj data =>
    match getD data "refund_result" (.obj []) with
    | .obj rr =>
      .ok { template_id := template_id,
            description := getD data "description" (.str ""),
            total_refund := getD rr "total_refund" (.int 0),
            biz_type := getD data "biz_type" (.str "unknown") }
    | _ => .error "refund_result is not a mapping"
  | _ => .error "template is not a mapping"

/-- The category filter of `handle_template_list` (`server.py` lines
330-336): a template is skipped iff the category is not "all" and one of
the three substring tests rejects it. -/
def skipTemplate (category template_id : String) : Bool :=
  category != "all" &&
    ((category == "normal" && containsSub template_id "ERR") ||
     (category == "error" && !containsSub template_id "ERR") ||
     (category == "corp" && !containsSub template_id "CORP"))

/-- The `for template_id, template_data in templates.items()` loop of
`handle_template_list`, in catalog iteration order. -/
def templateListLoop (category : String) :
    List (String × Value) → Except String (List TemplateSummary)
  | [] => .ok []
  | (template_id, template_data) :: rest =>
    if skipTemplate category template_id then
      templateListLoop category rest
    else do
      let s ← summarizeTemplate template_id template_data
      let r ← templateListLoop category rest
      .ok (s :: r)

/-- `handle_template_list` from `server.py`: the template catalog is
passed in explicitly (the source loads it from disk into a module-global
dict; spec §2 treats template loading as an external collaborator). -/
def handle_template_list (templates : List (String × Value))
    (category? : Option String) : Except String (List TemplateSummary) :=
  templateListLoop (category?.getD "all") templates

/-- `handle_scenario_build_error` from `server.py`: arguments are the
`arguments.get`-style optional strings; the failure value carries the
`Unknown error type` message and the `available_types` list. -/
def handle_scenario_build_error (user_name? error_type? error_msg? action? :
    Option String) : Except (String × List String) ScenarioConfig :=
  let user_name := user_name?.getD "테스트사용자"
  let error_type_str := error_type?.getD ""
  let error_msg0 := error_msg?.getD ""
  let action0 := action?.getD ""
  match ErrorType.fromValue error_type_str with
  | none => .error ("Unknown error type: " ++ error_type_str, ErrorType.values)
  | some error_type =>
    let error_msg :=
      if error_msg0 = "" then ERROR_MESSAGES error_type else error_msg0
    let action_str :=
      if action0 = "" then (ERROR_DEFAULT_ACTION error_type).value else action0
    let scenario : ScenarioConfig :=
      { scenario_name := "에러_" ++ error_type.value ++ "_" ++ user_name,
        description := user_name ++ "의 " ++ error_type.value ++ " 에러 시나리오",
        user_info := { name := user_name } }
    let error_config : ActionConfig :=
      { success := false, error_type := some error_type.value,
        error_msg := some error_msg }
    if action_str = "cert_request" then
      .ok { scenario with cert_request_config := error_config }
    else if action_str = "cert_response" then
      .ok { scenario with cert_response_config := error_config }
    else if action_str = "check" then
      .ok { scenario with check_config := error_config }
    else
      .ok { scenario with load_config := error_config }

/-- One element of the `steps` argument of
`handle_scenario_build_progress`: a dict read back with `.get` defaults. -/
structure StepInput where
  step_name : Option String := none
  progress : Option String := none
  delay_seconds : Option ℚ := none

/-- `handle_scenario_build_progress` from `server.py`: empty or omitted
`steps` is replaced by the fixed four-step default sequence, then every
step dict is turned into a `ProgressStep` with `.get` defaults. -/
def handle_scenario_build_progress (user_name? : Option String)
    (total_refund? : Option Int) (queue_name? : Option String)
    (steps? : Option (List StepInput)) : ScenarioConfig :=
  let user_name := user_name?.getD "테스트사용자"
  let total_refund := total_refund?.getD 0
  let queue_name := queue_name?.getD "refund-search.fifo"
  let steps_data := steps?.getD []
  let steps_data :=
    if steps_data.isEmpty then
      [{ step_name := some "홈택스 로그인", progress := some "10%",
         delay_seconds := some (1/2) },
       { step_name := some "신고내역 조회", progress := some "30%",
         delay_seconds := some 1 },
       { step_name := some "환급액 계산", progress := some "60%",
         delay_seconds := some (3/2) },
       { step_name := some "결과 생성", progress := some "90%",
         delay_seconds := some (1/2) }]
    else steps_data
  let steps := steps_data.map fun s =>
    ({ step_name := s.step_name.getD "", progress := s.progress.getD "0%",
       delay_seconds := s.delay_seconds.getD (1/2) } : ProgressStep)
  { scenario_name := "진행률테스트_" ++ user_name,
    description := user_name ++ "의 진행률 전송 테스트 시나리오",
    user_info := { name := user_name },
    refund_result := { total_refund := total_refund },
    progress_config :=
      { enabled := true, queue_name := queue_name, steps := steps } }

/-- Result shape of `handle_scenario_validate`. -/
structure ValidateResult where
  valid : Bool
  errors : List String
  warnings : List String
deriving DecidableEq

/-- `handle_scenario_validate` from `server.py`: parse, then the four
independent rules; a parse failure contributes the single parsing error
(the rules sit after `from_dict` inside the same `try`, so none of them
runs in that case); `valid` is `len(errors) == 0`. -/
def handle_scenario_validate (scenario? : Option Value) : ValidateResult :=
  let scenario_data := scenario?.getD (.obj [])
  match ScenarioConfig.from_dict scenario_data with
  | .error e =>
    { valid := false, errors := ["시나리오 파싱 오류: " ++ e], warnings := [] }
  | .ok scenario =>
    let warnings :=
      (if scenario.biz_type = BizType.individual_biz &&
          scenario.refund_result.total_refund == 0 then
        ["개인사업자 시나리오인데 환급액이 0원입니다."] else []) ++
      (match scenario.user_info.phone with
       | some p => if p != "" && p.length != 11 then
           ["전화번호가 11자리가 아닙니다."] else []
       | none => [])
    let errors :=
      (match scenario.user_info.birthday with
       | some b => if b != "" && b.length != 8 then
           ["생년월일은 YYYYMMDD 형식이어야 합니다."] else []
       | none => []) ++
      (match scenario.taxpayer_info.tin with
       | some t => if t != "" && t.length != 18 then
           ["납세자관리번호는 18자리여야 합니다."] else []
       | none => [])
    { valid := errors.isEmpty, errors := errors, warnings := warnings }

/-- Python truthiness of an `arguments.get(...)` result: an absent
argument (`None`) is falsy. -/
def truthyOpt : Option Value → Bool
  | none => false
  | some v => v.isTruthy

/-- The item written to the store by `handle_scenario_assign`
(`server.py` lines 594-597). -/
def assignItem (user_ern : String) (scenario : Value) : Value :=
  .obj [("user_ern", .str user_ern), ("scenario_config", scenario)]

/-- The `try: ... table.put_item(...) except:` tail of
`handle_scenario_assign`: the external store capability (boto3 resource
resolution plus `put_item`, spec §4.6 "put") is the `put` parameter; any
fault it reports becomes the success=false recovery payload that carries
the scenario. -/
def storeScenario (put : Value → Except String Unit) (user_ern : String)
    (scenario : Value) : Value :=
  match put (assignItem user_ern scenario) with
  | .ok _ =>
    .obj [("success", .bool true), ("user_ern", .str user_ern),
          ("message", .str ("시나리오가 " ++ user_ern ++ "에 할당되었습니다."))]
  | .error e =>
    .obj [("success", .bool false),
          ("error", .str ("DynamoDB 저장 실패: " ++ e)),
          ("user_ern", .str user_ern),
          ("scenario", scenario),
          ("note", .str "DynamoDB에 저장하지 못했습니다. 위 시나리오를 수동으로 저장해주세요.")]

/-- `handle_scenario_assign` from `server.py`: requires a truthy
`user_ern`; resolves the scenario as the code does (`if scenario_data:`
/ `elif template_id:` — Python truthiness), then stores it.  The template
catalog and the store capability are explicit parameters. -/
def handle_scenario_assign (put : Value → Except String Unit)
    (user_ern? : Option String) (scenario? : Option Value)
    (template_id? : Option String) (templates : List (String × Value)) :
    Value :=
  let user_ern := user_ern?.getD ""
  if user_ern = "" then .obj [("error", .str "user_ern is required")]
  else
    if truthyOpt scenario? then
      storeScenario put user_ern (scenario?.getD .null)
    else
      let tid := template_id?.getD ""
      if tid != "" then
        match lookupField templates tid with
        | none =>
          .obj [("error", .str ("Template not found: " ++ tid)),
                ("available_templates", .list (templates.map fun p => .str p.1))]
        | some tpl => storeScenario put user_ern tpl
      else
        .obj [("error", .str "Either scenario or template_id is required")]

/- ===================== Theorems about the handlers =================== -/

/-- The failing `ActionConfig` that `build_error` writes for a kind when
no explicit message is supplied. -/
def defaultErrorConfig (et : ErrorType) : ActionConfig :=
  { success := false, error_type := some et.value,
    error_msg := some (ERROR_MESSAGES et) }

/-- The four caller-settable `ActionConfig` slots of a scenario, in
`cert_request`, `cert_response`, `check`, `load` order. -/
def actionSlots (s : ScenarioConfig) :
    ActionConfig × ActionConfig × ActionConfig × ActionConfig :=
  (s.cert_request_config, s.cert_response_config, s.check_config,
   s.load_config)

theorem fromValue_value (et : ErrorType) :
    ErrorType.fromValue et.value = some et := by
  cases et <;> rfl

/-- C2: for every catalog `ErrorType`, `build_error` with no explicit
message or action succeeds, and exactly the slot matching
`ERROR_DEFAULT_ACTION` carries success=false with the kind's string
value and its `ERROR_MESSAGES` message, while every other slot keeps the
success=true default. -/
theorem build_error_default_wiring (et : ErrorType) :
    (handle_scenario_build_error none (some et.value) none none).map
        actionSlots =
      .ok ((if ERROR_DEFAULT_ACTION et = .CERT_REQUEST then
              defaultErrorConfig et else {}),
           (if ERROR_DEFAULT_ACTION et = .CERT_RESPONSE then
              defaultErrorConfig et else {}),
           (if ERROR_DEFAULT_ACTION et = .CHECK then
              defaultErrorConfig et else {}),
           (if ERROR_DEFAULT_ACTION et = .LOAD then
              defaultErrorConfig et else {})) := by
  cases et <;> rfl

theorem fromValue_eq_none {s : String} (h : s ∉ ErrorType.values) :
    ErrorType.fromValue s = none := by
  unfold ErrorType.fromValue
  split
  all_goals first
    | rfl
    | exact absurd (by decide) h

/-- C3: for every `error_type` string outside the catalog's values,
`build_error` fails with the unknown-error-type message carrying the
valid-values list, and returns no scenario. -/
theorem build_error_unknown_kind (s : String) (h : s ∉ ErrorType.values) :
    handle_scenario_build_error none (some s) none none =
      .error ("Unknown error type: " ++ s, ErrorType.values) := by
  simp [handle_scenario_build_error, fromValue_eq_none h]

theorem build_error_unknown_kind_witness :
    "not-a-real-kind" ∉ ErrorType.values ∧
    handle_scenario_build_error none (some "not-a-real-kind") none none =
      .error ("Unknown error type: not-a-real-kind", ErrorType.values) :=
  ⟨by decide, build_error_unknown_kind "not-a-real-kind" (by decide)⟩

/-- C10: for every catalog kind and every explicitly supplied action
string other than "cert_request", "cert_response" or "check" (including
"calc" or any arbitrary string), `build_error` succeeds and writes the
failing config into the `load` slot — the load stage is the catch-all
branch. -/
theorem build_error_load_catchall (et : ErrorType) (action : String)
    (h0 : action ≠ "") (h1 : action ≠ "cert_request")
    (h2 : action ≠ "cert_response") (h3 : action ≠ "check") :
    (handle_scenario_build_error none (some et.value) none (some action)).map
        actionSlots =
      .ok ({}, {}, {}, defaultErrorConfig et) := by
  simp [handle_scenario_build_error, fromValue_value, h0, h1, h2, h3,
    actionSlots, defaultErrorConfig, Except.map]

theorem build_error_load_catchall_witness :
    (("calc" : String) ≠ "" ∧ ("calc" : String) ≠ "cert_request" ∧
     ("calc" : String) ≠ "cert_response" ∧ ("calc" : String) ≠ "check") ∧
    (handle_scenario_build_error none (some ErrorType.AUTH_EXPIRED.value)
        none (some "calc")).map actionSlots =
      .ok ({}, {}, {}, defaultErrorConfig .AUTH_EXPIRED) :=
  ⟨⟨by decide, by decide, by decide, by decide⟩,
   build_error_load_catchall .AUTH_EXPIRED "calc" (by decide) (by decide)
     (by decide) (by decide)⟩

/-- C7: `build_progress` always enables progress reporting; an omitted or
empty `steps` argument yields exactly the fixed four default steps
(login 10%/0.5s, history lookup 30%/1.0s, calculation 60%/1.5s, result
generation 90%/0.5s) in that order, and a non-empty `steps` sequence is
used in the given order with any missing per-step delay defaulting to
0.5s. -/
theorem build_progress_steps (user_name? : Option String)
    (total_refund? : Option Int) (queue_name? : Option String)
    (steps? : Option (List StepInput)) :
    (handle_scenario_build_progress user_name? total_refund? queue_name?
        steps?).progress_config =
      { enabled := true, queue_name := queue_name?.getD "refund-search.fifo",
        steps :=
          if (steps?.getD []).isEmpty then
            [{ step_name := "홈택스 로그인", progress := "10%",
               delay_seconds := 1/2 },
             { step_name := "신고내역 조회", progress := "30%",
               delay_seconds := 1 },
             { step_name := "환급액 계산", progress := "60%",
               delay_seconds := 3/2 },
             { step_name := "결과 생성", progress := "90%",
               delay_seconds := 1/2 }]
          else (steps?.getD []).map fun s =>
            { step_name := s.step_name.getD "",
              progress := s.progress.getD "0%",
              delay_seconds := s.delay_seconds.getD (1/2) } } := by
  by_cases h : (steps?.getD []).isEmpty <;>
    simp [handle_scenario_build_progress, h]

/-- C4: `validate` on an input that fails to deserialize reports exactly
the one parse error (no other rule contributes, and no warning is
emitted), and on every input the `valid` flag equals emptiness of the
errors list, so warnings never affect validity. -/
theorem validate_parse_error_and_validity :
    (∀ v e, ScenarioConfig.from_dict v = .error e →
      handle_scenario_validate (some v) =
        { valid := false, errors := ["시나리오 파싱 오류: " ++ e],
          warnings := [] }) ∧
    (∀ scenario?, (handle_scenario_validate scenario?).valid =
      (handle_scenario_validate scenario?).errors.isEmpty) := by
  constructor
  · intro v e h
    simp [handle_scenario_validate, h]
  · intro scenario?
    cases h : ScenarioConfig.from_dict (scenario?.getD (.obj [])) <;>
      simp [handle_scenario_validate, h]

theorem validate_parse_error_witness :
    ScenarioConfig.from_dict (.str "x") = .error "expected a mapping" ∧
    handle_scenario_validate (some (.str "x")) =
      { valid := false, errors := ["시나리오 파싱 오류: expected a mapping"],
        warnings := [] } :=
  ⟨rfl, validate_parse_error_and_validity.1 (.str "x") "expected a mapping" rfl⟩

/-- C8: on the scenario whose `user_info.birthday` is "2024" (length 4)
with everything else at the defaults, `validate` reports exactly one
error, the birthday-format one (the only other finding is the
zero-refund warning, which is not an error). -/
theorem validate_birthday_length_4 :
    handle_scenario_validate
        (some (.obj [("user_info", .obj [("birthday", .str "2024")])])) =
      { valid := false, errors := ["생년월일은 YYYYMMDD 형식이어야 합니다."],
        warnings := ["개인사업자 시나리오인데 환급액이 0원입니다."] } := rfl

/-- C5: whenever the store's put capability fails on the item that
`assign` builds, the result is the success=false recovery object carrying
the failure description (with the store's reason) and the full scenario
representation that would have been persisted. -/
theorem assign_store_failure (put : Value → Except String Unit)
    (user_ern : String) (v : Value) (template_id? : Option String)
    (templates : List (String × Value)) (reason : String)
    (hue : user_ern ≠ "") (hv : v.isTruthy = true)
    (hput : put (assignItem user_ern v) = .error reason) :
    handle_scenario_assign put (some user_ern) (some v) template_id?
        templates =
      .obj [("success", .bool false),
            ("error", .str ("DynamoDB 저장 실패: " ++ reason)),
            ("user_ern", .str user_ern),
            ("scenario", v),
            ("note", .str "DynamoDB에 저장하지 못했습니다. 위 시나리오를 수동으로 저장해주세요.")] := by
  simp [handle_scenario_assign, hue, truthyOpt, hv, storeScenario, hput]

theorem assign_store_failure_witness :
    ("X" : String) ≠ "" ∧
    (Value.obj [("a", .int 1)]).isTruthy = true ∧
    handle_scenario_assign (fun _ => .error "unreachable") (some "X")
        (some (.obj [("a", .int 1)])) none [] =
      .obj [("success", .bool false),
            ("error", .str "DynamoDB 저장 실패: unreachable"),
            ("user_ern", .str "X"),
            ("scenario", .obj [("a", .int 1)]),
            ("note", .str "DynamoDB에 저장하지 못했습니다. 위 시나리오를 수동으로 저장해주세요.")] :=
  ⟨by decide, rfl,
   assign_store_failure (fun _ => .error "unreachable") "X"
     (.obj [("a", .int 1)]) none [] "unreachable" (by decide) rfl rfl⟩

/- ----- template_list filtering (C6) ----- -/

/-- Reference recursion: summarize the templates kept by `keep`, in
order. -/
def summarizeFiltered (keep : String → Bool) :
    List (String × Value) → Except String (List TemplateSummary)
  | [] => .ok []
  | (template_id, template_data) :: rest =>
    if keep template_id then
      summarizeTemplate template_id template_data >>= fun s =>
      summarizeFiltered keep rest >>= fun r => .ok (s :: r)
    else summarizeFiltered keep rest

theorem templateListLoop_eq_summarizeFiltered (category : String)
    (templates : List (String × Value)) :
    templateListLoop category templates =
      summarizeFiltered (fun template_id => !skipTemplate category
        template_id) templates := by
  induction templates with
  | nil => rfl
  | cons p rest ih =>
    by_cases h : skipTemplate category p.1
    · cases p with
      | mk tid data => simp [templateListLoop, summarizeFiltered, h, ih]
    · cases p with
      | mk tid data => simp [templateListLoop, summarizeFiltered, h, ih]

theorem summarizeFiltered_eq_filter (keep : String → Bool)
    (templates : List (String × Value)) :
    summarizeFiltered keep templates =
      (templates.filter fun p => keep p.1).mapM
        (fun p => summarizeTemplate p.1 p.2) := by
  induction templates with
  | nil => rfl
  | cons p rest ih =>
    cases p with
    | mk tid data =>
      rw [List.filter_cons]
      by_cases h : keep tid
      · rw [if_pos (by simpa using h), List.mapM_cons]
        show (if keep tid then _ else _) = _
        rw [if_pos h, ih]
        rfl
      · rw [if_neg (by simpa using h)]
        show (if keep tid then _ else _) = _
        rw [if_neg h, ih]

theorem templateListLoop_eq_filter (category : String)
    (templates : List (String × Value)) :
    templateListLoop category templates =
      (templates.filter fun p => !skipTemplate category p.1).mapM
        (fun p => summarizeTemplate p.1 p.2) := by
  rw [templateListLoop_eq_summarizeFiltered, summarizeFiltered_eq_filter]

theorem skip_error_category (template_id : String) :
    skipTemplate "error" template_id = !containsSub template_id "ERR" := by
  simp [skipTemplate]

theorem skip_normal_category (template_id : String) :
    skipTemplate "normal" template_id = containsSub template_id "ERR" := by
  simp [skipTemplate]

theorem skip_corp_category (template_id : String) :
    skipTemplate "corp" template_id = !containsSub template_id "CORP" := by
  simp [skipTemplate]

theorem skip_all_category (template_id : String) :
    skipTemplate "all" template_id = false := by
  simp [skipTemplate]

/-- C6: for every template catalog, `template_list` with category
"error" summarizes exactly the templates whose identifier contains the
substring "ERR"; "normal" exactly those not containing "ERR" (so a CORP
template without "ERR" passes the normal filter too); "corp" exactly
those containing "CORP"; "all" every template — in each case in catalog
iteration (insertion) order, as `List.filter` preserves it. -/
theorem template_list_filtering (templates : List (String × Value)) :
    handle_template_list templates (some "error") =
      (templates.filter fun p => containsSub p.1 "ERR").mapM
        (fun p => summarizeTemplate p.1 p.2) ∧
    handle_template_list templates (some "normal") =
      (templates.filter fun p => !containsSub p.1 "ERR").mapM
        (fun p => summarizeTemplate p.1 p.2) ∧
    handle_template_list templates (some "corp") =
      (templates.filter fun p => containsSub p.1 "CORP").mapM
        (fun p => summarizeTemplate p.1 p.2) ∧
    handle_template_list templates (some "all") =
      templates.mapM (fun p => summarizeTemplate p.1 p.2) := by
  refine ⟨?_, ?_, ?_, ?_⟩ <;>
    simp [handle_template_list, templateListLoop_eq_filter,
      skip_error_category, skip_normal_category, skip_corp_category,
      skip_all_category]

/- ----- assign input resolution (C9) ----- -/

/-- C9 counterexample: an inline scenario value is given (the empty
object) together with a template_id that is in the catalog, yet the
stored/recovered scenario is the template's value, not the inline one:
Python's `if scenario_data:` treats the empty dict as absent, so the
claim "an inline scenario value, when given, takes precedence" fails at
this input. -/
theorem assign_empty_inline_not_used :
    handle_scenario_assign (fun _ => .error "unreachable") (some "X")
        (some (.obj [])) (some "TPL_X") [("TPL_X", .obj [("a", .int 1)])] =
      .obj [("success", .bool false),
            ("error", .str "DynamoDB 저장 실패: unreachable"),
            ("user_ern", .str "X"),
            ("scenario", .obj [("a", .int 1)]),
            ("note", .str "DynamoDB에 저장하지 못했습니다. 위 시나리오를 수동으로 저장해주세요.")] ∧
    Value.obj [("a", .int 1)] ≠ Value.obj [] := by
  refine ⟨rfl, ?_⟩
  simp

/-- C9 amended: a truthy (non-empty) inline scenario takes precedence
over any template_id; with neither a truthy inline scenario nor a
non-empty template_id the operation fails with the missing-input error;
with a non-empty template_id absent from the catalog (and no truthy
inline scenario) it fails with template-not-found carrying the available
ids. -/
theorem assign_resolution (put : Value → Except String Unit)
    (user_ern : String) (templates : List (String × Value))
    (hue : user_ern ≠ "") :
    (∀ (v : Value) (template_id? : Option String), v.isTruthy = true →
      handle_scenario_assign put (some user_ern) (some v) template_id?
          templates = storeScenario put user_ern v) ∧
    (∀ (scenario? : Option Value) (template_id? : Option String),
      truthyOpt scenario? = false → template_id?.getD "" = "" →
      handle_scenario_assign put (some user_ern) scenario? template_id?
          templates =
        .obj [("error", .str "Either scenario or template_id is required")]) ∧
    (∀ (scenario? : Option Value) (tid : String),
      truthyOpt scenario? = false → tid ≠ "" →
      lookupField templates tid = none →
      handle_scenario_assign put (some user_ern) scenario? (some tid)
          templates =
        .obj [("error", .str ("Template not found: " ++ tid)),
              ("available_templates",
               .list (templates.map fun p => .str p.1))]) := by
  refine ⟨?_, ?_, ?_⟩
  · intro v template_id? hv
    simp [handle_scenario_assign, hue, truthyOpt, hv]
  · intro scenario? template_id? hs ht
    simp [handle_scenario_assign, hue, hs, ht]
  · intro scenario? tid hs ht hmiss
    simp [handle_scenario_assign, hue, hs, ht, hmiss]

theorem assign_resolution_witness :
    ("X" : String) ≠ "" ∧
    (Value.obj [("a", .int 1)]).isTruthy = true ∧
    handle_scenario_assign (fun _ => .ok ()) (some "X")
        (some (.obj [("a", .int 1)])) (some "TPL_X")
        [("TPL_X", .obj [("b", .int 2)])] =
      storeScenario (fun _ => .ok ()) "X" (.obj [("a", .int 1)]) ∧
    handle_scenario_assign (fun _ => .ok ()) (some "X") none none
        [("TPL_X", .obj [("b", .int 2)])] =
      .obj [("error", .str "Either scenario or template_id is required")] ∧
    handle_scenario_assign (fun _ => .ok ()) (some "X") none (some "TPL_Z")
        [("TPL_X", .obj [("b", .int 2)])] =
      .obj [("error", .str "Template not found: TPL_Z"),
            ("available_templates", .list [.str "TPL_X"])] := by
  refine ⟨by decide, rfl, ?_, ?_, ?_⟩
  · exact (assign_resolution (fun _ => .ok ()) "X"
      [("TPL_X", .obj [("b", .int 2)])] (by decide)).1
      (.obj [("a", .int 1)]) (some "TPL_X") rfl
  · exact (assign_resolution (fun _ => .ok ()) "X"
      [("TPL_X", .obj [("b", .int 2)])] (by decide)).2.1 none none rfl rfl
  · exact (assign_resolution (fun _ => .ok ()) "X"
      [("TPL_X", .obj [("b", .int 2)])] (by decide)).2.2 none "TPL_Z"
      rfl (by decide) rfl

end MockItr
